import Mathlib

/-!
# Verification of the SIP.js (node fork, v0.15.10.1) signaling core

A shallow embedding of the parts of the repository that the checked claims
concern, together with theorems settling each claim:

* the Transport finite state machine
  (`lib`-compiled `src/platform/web/transport.ts`, shipped in the sources as
  the compiled `Transport` class): `transitionState`, `_connect`,
  `_disconnect`, the transition-in-progress flag and the connect/disconnect
  promises;
* `DigestAuthentication.authenticate` (`src/core/messages/digest-authentication.ts`):
  challenge validation, qop selection, the nonce count and its hex rendering;
* `Publisher.receiveResponse` and `Publisher.stateTransition` (`src/api/publisher.ts`);
* `UserAgent.stop`, `UserAgent.onTransportMessage` and the
  `UserAgentCoreDelegate.onInvite` handler built in `UserAgent.initCore`
  (`src/api/user-agent.ts`).

Modelling conventions: JavaScript promises are modelled by explicit outcome
values; callbacks, event-emitter notifications and network sends are recorded
in an event trace, in the exact order the source performs them; thrown
exceptions are a third result component.  Randomness (cnonce generation) is a
parameter.  JS numbers parsed with `Number(...)` are modelled by
`Option Int` (`none` = NaN); the claims only exercise integral values.
-/

namespace SipJs

/-! ## Transport state (src/api/transport-state.ts) -/

/-- The four transport states of the `TransportState` enum. -/
inductive TransportState
  | Connecting
  | Connected
  | Disconnecting
  | Disconnected
deriving DecidableEq, Repr, Fintype

/-- Errors thrown or used as promise rejection reasons by the Transport.
Constructors mirror the `Error`/`StateTransitionError` values the source
creates; messages are elided, the identity of each throw site is kept. -/
inductive TransportException
  /-- `StateTransitionError("Loop detected.")` from `transitionLoopDetectedError`. -/
  | stateTransitionLoop
  /-- `Error("Invalid state transition from ... to ...")` from `invalidTransition`. -/
  | invalidTransition
  /-- `Error("Connect promise must be defined.")` -/
  | connectPromiseMustBeDefined
  /-- `Error("Connect promise must not be defined.")` -/
  | connectPromiseMustNotBeDefined
  /-- `Error("Disconnect promise must be defined.")` -/
  | disconnectPromiseMustBeDefined
  /-- `Error("Disconnect promise must not be defined.")` -/
  | disconnectPromiseMustNotBeDefined
  /-- `Error("Connect resolve undefined.")` or `Error("Connect reject undefined.")` -/
  | connectSettlerUndefined
  /-- `Error("Disconnect resolve undefined.")` or `Error("Disconnect reject undefined.")` -/
  | disconnectSettlerUndefined
  /-- `Error("WebSocket must be defined.")` -/
  | webSocketMustBeDefined
  /-- the error produced when WebSocket construction fails, or the
  `error` argument threaded through `transitionState`. -/
  | webSocketError
deriving DecidableEq, Repr, Fintype

/-- The mutable fields of the compiled `Transport` class that drive its FSM.
`connectPromise`/`disconnectPromise` record whether the corresponding promise
(and its resolve/reject functions, which the source always assigns together)
is currently defined; `connectTimeout` whether the connect timer is set; `ws`
whether `this._ws` is defined. -/
structure Transport where
  state : TransportState
  transitioningState : Bool
  connectPromise : Bool
  disconnectPromise : Bool
  connectTimeout : Bool
  ws : Bool
deriving DecidableEq, Repr, Fintype

/-- Observable events of a transport run, in source order: `stateChanged s`
is the `_stateEventEmitter.emit("event", ...)` notification, carrying a
snapshot of the transport as the observers see it at that instant;
`onConnectCalled`/`onDisconnectCalled` are the delegate callbacks;
`legacyEmit` the deprecated string-keyed event; the four `...Resolved` /
`...Rejected` events are the settlement of the pending connect and disconnect
promises; `flagCleared` is the final `this.transitioningState = false`. -/
inductive TransportEvent
  | stateChanged (snapshot : Transport)
  | onConnectCalled
  | onDisconnectCalled (error : Bool)
  | legacyEmit (s : TransportState)
  | connectResolved
  | connectRejected
  | disconnectResolved
  | disconnectRejected
  | flagCleared
deriving DecidableEq, Repr

/-- The legal-transition test of `Transport.transitionState` (the `switch` on
`this._state` whose default arm calls `invalidTransition()`). -/
def validTransportTransition : TransportState → TransportState → Bool
  | .Connecting, n => n = .Connected || n = .Disconnecting || n = .Disconnected
  | .Connected, n => n = .Disconnecting || n = .Disconnected
  | .Disconnecting, n => n = .Connecting || n = .Disconnected
  | .Disconnected, n => n = .Connecting

/-- `Transport.transitionState(newState, error?)`.  Returns the resulting
transport, the trace of events performed before returning or throwing, and
the exception thrown (if any).  The translation follows the source line by
line; see the member comments of `TransportEvent` for which statement each
event records. -/
def transitionState (t : Transport) (newState : TransportState) (error : Bool) :
    Transport × List TransportEvent × Option TransportException :=
  -- if (this.transitioningState) throw this.transitionLoopDetectedError(newState);
  if t.transitioningState then (t, [], some .stateTransitionLoop)
  else
    -- this.transitioningState = true;
    let t := { t with transitioningState := true }
    -- Validate state transition (switch on this._state)
    if ¬ validTransportTransition t.state newState then
      (t, [], some .invalidTransition)
    else
      -- Update state
      let oldState := t.state
      let t := { t with state := newState }
      -- Local copies of connect/disconnect promises
      let connectPromise := t.connectPromise
      let disconnectPromise := t.disconnectPromise
      -- Reset connect promises if no longer connecting
      let t := if oldState = .Connecting then { t with connectPromise := false } else t
      -- Reset disconnect promises if no longer disconnecting
      let t := if oldState = .Disconnecting then { t with disconnectPromise := false } else t
      -- Clear any outstanding connect timeout
      let t := if t.connectTimeout then { t with connectTimeout := false } else t
      -- this._stateEventEmitter.emit("event", this._state);
      let events := [TransportEvent.stateChanged t]
      -- Transition to Connected: startSendingKeepAlives(); this.onConnect?.()
      let events := if newState = .Connected then events ++ [.onConnectCalled] else events
      -- Transition from Connected: stopSendingKeepAlives(); this.onDisconnect?.(error)
      let events := if oldState = .Connected then events ++ [.onDisconnectCalled error] else events
      -- Legacy transport behavior (switch on newState)
      let events := events ++ [.legacyEmit newState]
      -- Complete connect promise
      if oldState = .Connecting ∧ ¬ connectPromise then
        (t, events, some .connectSettlerUndefined)
      else
        let events := events ++
          (if oldState = .Connecting then
            [if newState = .Connected then TransportEvent.connectResolved
             else TransportEvent.connectRejected]
          else [])
        -- Complete disconnect promise
        if oldState = .Disconnecting ∧ ¬ disconnectPromise then
          (t, events, some .disconnectSettlerUndefined)
        else
          let events := events ++
            (if oldState = .Disconnecting then
              [if newState = .Disconnected then TransportEvent.disconnectResolved
               else TransportEvent.disconnectRejected]
            else [])
          -- this.transitioningState = false;
          ({ t with transitioningState := false }, events ++ [.flagCleared], none)

/-- Outcome of `Transport._connect()` / `Transport._disconnect()`: a pending
promise (the existing one or a newly created one), an already-settled
promise, a rejected promise, or a synchronous throw. -/
inductive PromiseOutcome
  | pendingExisting
  | pendingNew
  | resolved
  | rejected (e : TransportException)
  | thrown (e : TransportException)
deriving DecidableEq, Repr

/-- `Transport._connect()`.  `wsOk` models whether `new WebSocket(...)`
construction succeeds (external I/O).  On construction failure the source
transitions to Disconnected on a fresh microtask and rejects with the error;
the model performs that continuation inline (equivalent under the
single-threaded executor: the prior transition has completed, so the flag is
down). -/
def connectTransport (t : Transport) (wsOk : Bool) :
    Transport × List TransportEvent × PromiseOutcome :=
  let proceed : Transport → List TransportEvent →
      Transport × List TransportEvent × PromiseOutcome := fun t events =>
    if wsOk then
      -- ws listeners added; this._ws = ws; this.connectPromise = new Promise(...)
      -- with this.connectTimeout = setTimeout(...) inside the executor
      ({ t with ws := true, connectPromise := true, connectTimeout := true },
        events, .pendingNew)
    else
      -- this._ws = undefined; Promise.resolve().then(() => {
      --   this.transitionState(Disconnected, error); throw error; });
      -- the continuation runs inside the promise chain, so anything it
      -- throws surfaces as a rejection of the returned promise
      let t := { t with ws := false }
      let (t, events2, exc) := transitionState t .Disconnected true
      match exc with
      | some e => (t, events ++ events2, .rejected e)
      | none => (t, events ++ events2, .rejected .webSocketError)
  match t.state with
  | .Connecting =>
    if t.transitioningState then (t, [], .rejected .stateTransitionLoop)
    else if ¬ t.connectPromise then (t, [], .thrown .connectPromiseMustBeDefined)
    else (t, [], .pendingExisting) -- Already connecting
  | .Connected =>
    if t.transitioningState then (t, [], .rejected .stateTransitionLoop)
    else if t.connectPromise then (t, [], .thrown .connectPromiseMustNotBeDefined)
    else (t, [], .resolved) -- Already connected
  | .Disconnecting =>
    if t.connectPromise then (t, [], .thrown .connectPromiseMustNotBeDefined)
    else
      match transitionState t .Connecting false with
      | (t', events, some .stateTransitionLoop) => (t', events, .rejected .stateTransitionLoop)
      | (t', events, some e) => (t', events, .thrown e)
      | (t', events, none) => proceed t' events
  | .Disconnected =>
    if t.connectPromise then (t, [], .thrown .connectPromiseMustNotBeDefined)
    else
      match transitionState t .Connecting false with
      | (t', events, some .stateTransitionLoop) => (t', events, .rejected .stateTransitionLoop)
      | (t', events, some e) => (t', events, .thrown e)
      | (t', events, none) => proceed t' events

/-- `Transport._disconnect()`. -/
def disconnectTransport (t : Transport) :
    Transport × List TransportEvent × PromiseOutcome :=
  let proceed : Transport → List TransportEvent →
      Transport × List TransportEvent × PromiseOutcome := fun t events =>
    if ¬ t.ws then (t, events, .thrown .webSocketMustBeDefined)
    else
      -- this.disconnectPromise = new Promise(...) with ws.close(1000) inside
      ({ t with disconnectPromise := true }, events, .pendingNew)
  match t.state with
  | .Connecting =>
    if t.disconnectPromise then (t, [], .thrown .disconnectPromiseMustNotBeDefined)
    else
      match transitionState t .Disconnecting false with
      | (t', events, some .stateTransitionLoop) => (t', events, .rejected .stateTransitionLoop)
      | (t', events, some e) => (t', events, .thrown e)
      | (t', events, none) => proceed t' events
  | .Connected =>
    if t.disconnectPromise then (t, [], .thrown .disconnectPromiseMustNotBeDefined)
    else
      match transitionState t .Disconnecting false with
      | (t', events, some .stateTransitionLoop) => (t', events, .rejected .stateTransitionLoop)
      | (t', events, some e) => (t', events, .thrown e)
      | (t', events, none) => proceed t' events
  | .Disconnecting =>
    if t.transitioningState then (t, [], .rejected .stateTransitionLoop)
    else if ¬ t.disconnectPromise then (t, [], .thrown .disconnectPromiseMustBeDefined)
    else (t, [], .pendingExisting) -- Already disconnecting
  | .Disconnected =>
    if t.transitioningState then (t, [], .rejected .stateTransitionLoop)
    else if t.disconnectPromise then (t, [], .thrown .disconnectPromiseMustNotBeDefined)
    else (t, [], .resolved) -- Already disconnected

/-- The snapshot carried by a `stateChanged` event, if the event is one. -/
def stateChangedSnapshot : TransportEvent → Option Transport
  | .stateChanged s => some s
  | _ => none

/-! ## Digest authentication (src/core/messages/digest-authentication.ts) -/

/-- JS falsiness of an optional string (`!x` / `if (x)`): absent (`undefined`)
or the empty string. -/
def falsyStr : Option String → Bool
  | none => true
  | some s => s = ""

/-- JS coercion of a possibly-`undefined` string to a string, as performed by
the `+` operator in the source's hash-input concatenations. -/
def jsStr : Option String → String
  | none => "undefined"
  | some s => s

/-- Free-algebra model of the crypto-js `MD5` computation and of JS string
concatenation of digests and strings.  The claims depend only on whether and
from which inputs a digest response is computed, never on hash values, so
digests are kept symbolic. -/
inductive HashExpr
  | str (s : String)
  | md5 (arg : HashExpr)
  | app (a b : HashExpr)
deriving DecidableEq, Repr

/-- The mutable fields of `DigestAuthentication`. -/
structure DigestAuthentication where
  username : Option String
  password : Option String
  cnonce : Option String
  nc : Nat
  ncHex : String
  response : Option HashExpr
  algorithm : Option String
  realm : Option String
  nonce : Option String
  opq : Option String -- the `opaque` attribute
  qop : Option String
  stale : Option Bool
  method : Option String
  uri : Option String
deriving DecidableEq, Repr

/-- The `DigestAuthentication` constructor: `nc = 0`, `ncHex = "00000000"`,
everything else not yet assigned. -/
def mkDigestAuthentication (username password : Option String) : DigestAuthentication :=
  { username := username, password := password, cnonce := none, nc := 0,
    ncHex := "00000000", response := none, algorithm := none, realm := none,
    nonce := none, opq := none, qop := none, stale := none, method := none,
    uri := none }

/-- Lower-case hex digit for a value below 16 (as produced by JS
`Number.prototype.toString(16)`). -/
def hexDigitChar (n : Nat) : Char :=
  if n < 10 then Char.ofNat (48 + n) else Char.ofNat (87 + n)

/-- Fuel-driven big-endian hex digit list of `n` (empty for 0). -/
def toHexAux : Nat → Nat → List Char
  | 0, _ => []
  | fuel + 1, n =>
    if n = 0 then [] else toHexAux fuel (n / 16) ++ [hexDigitChar (n % 16)]

/-- JS `Number(n).toString(16)` for a nonnegative integer `n`.  The fuel `n`
dominates the digit count, so the rendering is complete. -/
def toHexString (n : Nat) : String :=
  if n = 0 then "0" else ⟨toHexAux n n⟩

/-- `"00000000".substr(0, 8 - hex.length) + hex`: left-pad with zeros to 8
characters.  JS `substr` with a nonpositive length yields the empty string,
which truncated subtraction reproduces. -/
def zeroPad8 (hex : String) : String :=
  ⟨List.replicate (8 - hex.length) '0'⟩ ++ hex

/-- `DigestAuthentication.updateNcHex()`. -/
def updateNcHex (d : DigestAuthentication) : DigestAuthentication :=
  { d with ncHex := zeroPad8 (toHexString d.nc) }

/-- `DigestAuthentication.calculateResponse(body?)`.  Builds the digest
response from the current attribute values, per qop branch. -/
def calculateResponse (d : DigestAuthentication) (body : Option String) :
    DigestAuthentication :=
  -- HA1 = MD5(username:realm:password)
  let ha1 := HashExpr.md5 (.str (jsStr d.username ++ ":" ++ jsStr d.realm ++ ":" ++
    jsStr d.password))
  if d.qop = some "auth" then
    -- HA2 = MD5(method:digestURI)
    let ha2 := HashExpr.md5 (.str (jsStr d.method ++ ":" ++ jsStr d.uri))
    -- response = MD5(HA1:nonce:nonceCount:credentialsNonce:qop:HA2)
    { d with response := some (.md5 (.app ha1 (.app
        (.str (":" ++ jsStr d.nonce ++ ":" ++ d.ncHex ++ ":" ++ jsStr d.cnonce ++ ":auth:"))
        ha2))) }
  else if d.qop = some "auth-int" then
    -- HA2 = MD5(method:digestURI:MD5(entityBody))
    let ha2 := HashExpr.md5 (.app
      (.str (jsStr d.method ++ ":" ++ jsStr d.uri ++ ":"))
      (.md5 (.str (match body with | none => "" | some s => s))))
    { d with response := some (.md5 (.app ha1 (.app
        (.str (":" ++ jsStr d.nonce ++ ":" ++ d.ncHex ++ ":" ++ jsStr d.cnonce ++
          ":auth-int:"))
        ha2))) }
  else if d.qop = none then
    -- HA2 = MD5(method:digestURI); response = MD5(HA1:nonce:HA2)
    let ha2 := HashExpr.md5 (.str (jsStr d.method ++ ":" ++ jsStr d.uri))
    { d with response := some (.md5 (.app ha1 (.app
        (.str (":" ++ jsStr d.nonce ++ ":")) ha2))) }
  else d

/-- The 401/407 challenge attributes `authenticate` inspects.  The grammar
parses the `qop` challenge parameter into an array of option values, so
`qop` is an optional list; `indexOf(x) > -1` is list membership. -/
structure Challenge where
  algorithm : Option String
  realm : Option String
  nonce : Option String
  opq : Option String -- the `opaque` attribute
  stale : Option Bool
  qop : Option (List String)
deriving DecidableEq, Repr

/-- The parts of an `OutgoingRequestMessage` that `authenticate` reads. -/
structure RequestInfo where
  method : String
  ruri : String
deriving DecidableEq, Repr

/-- The tail of `DigestAuthentication.authenticate` once the challenge has
been validated and qop selected: fill attributes, bump and render the nonce
count (wrapping at 2^32), then compute the response.  `cnonce` stands for
`createRandomToken(12)`. -/
def authenticateFinish (d : DigestAuthentication) (request : RequestInfo)
    (cnonce : String) (body : Option String) : DigestAuthentication × Bool :=
  let d := { d with method := some request.method, uri := some request.ruri,
                    cnonce := some cnonce, nc := d.nc + 1 }
  let d := updateNcHex d
  -- nc-value = 8LHEX. Max value = 'FFFFFFFF'.
  let d := if d.nc = 4294967296 then { d with nc := 1, ncHex := "00000001" } else d
  (calculateResponse d body, true)

/-- `DigestAuthentication.authenticate(request, challenge, body?)`.  Returns
the updated object and the boolean result. -/
def authenticate (d : DigestAuthentication) (request : RequestInfo)
    (challenge : Challenge) (cnonce : String) (body : Option String) :
    DigestAuthentication × Bool :=
  -- Inspect and validate the challenge.
  let d := { d with algorithm := challenge.algorithm, realm := challenge.realm,
                    nonce := challenge.nonce, opq := challenge.opq,
                    stale := challenge.stale }
  if ¬ falsyStr d.algorithm ∧ d.algorithm ≠ some "MD5" then (d, false)
  else
    let d := if falsyStr d.algorithm then { d with algorithm := some "MD5" } else d
    if falsyStr d.realm then (d, false)
    else if falsyStr d.nonce then (d, false)
    else
      -- 'qop' can contain a list of values (Array). Let's choose just one.
      match challenge.qop with
      | some qopList =>
        if qopList.contains "auth" then
          authenticateFinish { d with qop := some "auth" } request cnonce body
        else if qopList.contains "auth-int" then
          authenticateFinish { d with qop := some "auth-int" } request cnonce body
        else (d, false)
      | none => authenticateFinish { d with qop := none } request cnonce body

/-- The legal transitions as enumerated by the claim: Disconnected to
Connecting; Connecting to Connected, Disconnecting, or Disconnected;
Connected to Disconnecting or Disconnected; Disconnecting to Disconnected or
Connecting.  Stated from the specification for comparison with
`validTransportTransition`, which is translated from the source. -/
def claimedLegalTransition : TransportState → TransportState → Bool
  | .Disconnected, n => n = .Connecting
  | .Connecting, n => n = .Connected || n = .Disconnecting || n = .Disconnected
  | .Connected, n => n = .Disconnecting || n = .Disconnected
  | .Disconnecting, n => n = .Disconnected || n = .Connecting

/-! ## Publisher (src/api/publisher.ts) -/

/-- A JS number as it arises in this code: an integer, or NaN (`none`) as
produced by `Number(...)` on an unparsable header value.  The source never
produces fractional values on the modelled paths (expires values are
integers). -/
abbrev JSNum := Option Int

/-- JS `x === 0` on a number that may be NaN. -/
def jsEqZero (x : JSNum) : Bool := x = some 0

/-- JS `x >= 0`; false when `x` is NaN. -/
def jsGeZero : JSNum → Bool
  | some v => 0 ≤ v
  | none => false

/-- JS `a <= b`; false when either side is NaN. -/
def jsLe : JSNum → JSNum → Bool
  | some a, some b => a ≤ b
  | _, _ => false

/-- JS `a > b`; false when either side is NaN. -/
def jsGt : JSNum → JSNum → Bool
  | some a, some b => b < a
  | _, _ => false

/-- The four publisher states of the `PublisherState` enum. -/
inductive PublisherState
  | Initial
  | Published
  | Unpublished
  | Terminated
deriving DecidableEq, Repr

/-- Observable events of a publisher run: `progressEmitted` is
`this.emit("progress", ...)`; `requestSent` is `sendPublishRequest` handing a
PUBLISH to the user agent core, recording the `Expires` header value, the
`SIP-If-Match` header (when an etag is held) and the body; `stateChanged` is
the `_stateEventEmitter.emit("event", ...)` notification. -/
inductive PublisherEvent
  | progressEmitted
  | requestSent (expires : JSNum) (sipIfMatch : Option String) (body : Option String)
  | stateChanged (s : PublisherState)
deriving DecidableEq, Repr

/-- Errors thrown by the publisher code. -/
inductive PublisherException
  /-- `Error("Invalid state transition from ... to ...")` in `stateTransition`. -/
  | invalidStateTransition
deriving DecidableEq, Repr

/-- The mutable fields of `Publisher` that drive the modelled paths.
`publishRefreshTimer` holds the delay (in milliseconds) the pending
`setTimeout` was scheduled with, if one is pending.  The `options` fields are
the ones `receiveResponse`/`publish` read back. -/
structure Publisher where
  state : PublisherState
  optionsExpires : Int
  optionsBody : Option String
  unpublishOnClose : Bool
  pubRequestBody : Option String
  pubRequestExpires : JSNum
  pubRequestEtag : Option String
  publishRefreshTimer : Option JSNum
  disposed : Bool
deriving DecidableEq, Repr

/-- The `Publisher` constructor's option handling: a non-number or
non-integral `expires` (represented by `none`) falls back to 3600;
`unpublishOnClose` defaults to true; `pubRequestExpires` starts at
`options.expires`; the state starts Initial. -/
def mkPublisher (expiresOption : Option Int) (unpublishOnCloseOption : Option Bool)
    (bodyOption : Option String) : Publisher :=
  { state := .Initial, optionsExpires := expiresOption.getD 3600,
    optionsBody := bodyOption,
    unpublishOnClose := unpublishOnCloseOption.getD true,
    pubRequestBody := none, pubRequestExpires := some (expiresOption.getD 3600),
    pubRequestEtag := none, publishRefreshTimer := none, disposed := false }

/-- The recurring `if (this.publishRefreshTimer) { clearTimeout(...);
this.publishRefreshTimer = undefined; }` block. -/
def clearPublishRefreshTimer (p : Publisher) : Publisher :=
  { p with publishRefreshTimer := none }

/-- `Publisher.sendPublishRequest()`: rebuilds the PUBLISH request with
`Event`/`Expires` extra headers, `SIP-If-Match` when an etag is held, and the
current request body, then sends it via the user agent core.  Recorded as a
`requestSent` event. -/
def sendPublishRequest (p : Publisher) : Publisher × List PublisherEvent :=
  (p, [.requestSent p.pubRequestExpires p.pubRequestEtag p.pubRequestBody])

/-- `Publisher.publish(content)`.  The 412/423 recovery paths call it with
`this.options.body`, which may be undefined, hence the optional content. -/
def publish (p : Publisher) (content : Option String) :
    Publisher × List PublisherEvent :=
  -- Clean up before the run
  let p := clearPublishRefreshTimer p
  -- is Initial or Modify request
  let p := { p with optionsBody := content, pubRequestBody := content }
  -- This is Initial request after unpublish
  let p := if jsEqZero p.pubRequestExpires then
      { p with pubRequestExpires := some p.optionsExpires, pubRequestEtag := none }
    else p
  sendPublishRequest p

/-- `Publisher.unpublish()`. -/
def unpublish (p : Publisher) : Publisher × List PublisherEvent :=
  -- Clean up before the run
  let p := clearPublishRefreshTimer p
  let p := { p with pubRequestBody := none, pubRequestExpires := some 0 }
  if p.pubRequestEtag ≠ none then sendPublishRequest p else (p, [])

/-- `Publisher.dispose()`.  Removal from the user agent's publisher
collection is handled in the user agent model. -/
def disposePublisher (p : Publisher) : Publisher × List PublisherEvent :=
  if p.disposed then (p, [])
  else
    let p := { p with disposed := true }
    -- Send unpublish, if requested
    if p.unpublishOnClose ∧ p.state = .Published then unpublish p
    else
      let p := clearPublishRefreshTimer p
      ({ p with pubRequestBody := none, pubRequestExpires := some 0,
                pubRequestEtag := none }, [])

/-- The legal-transition test of `Publisher.stateTransition` (the `switch` on
`this._state` that calls `invalidTransition()` otherwise). -/
def validPublisherTransition : PublisherState → PublisherState → Bool
  | .Initial, n => n = .Published || n = .Unpublished || n = .Terminated
  | .Published, n => n = .Unpublished || n = .Terminated
  | .Unpublished, n => n = .Published || n = .Terminated
  | .Terminated, _ => false

/-- `Publisher.stateTransition(newState)`: validate (throwing on an illegal
transition, before any mutation), update the state, notify state-change
listeners, and dispose on reaching Terminated. -/
def publisherStateTransition (p : Publisher) (newState : PublisherState) :
    Publisher × List PublisherEvent × Option PublisherException :=
  if ¬ validPublisherTransition p.state newState then
    (p, [], some .invalidStateTransition)
  else
    let p := { p with state := newState }
    let events := [PublisherEvent.stateChanged newState]
    if newState = .Terminated then
      let (p, ev2) := disposePublisher p
      (p, events ++ ev2, none)
    else (p, events, none)

/-- The header values of an incoming response to PUBLISH that
`receiveResponse` reads.  `expires`/`minExpires` are `none` when the header
is absent, otherwise the `Number(...)` parse of its value. -/
structure PublishResponse where
  statusCode : Nat
  sipETag : Option String
  expires : Option JSNum
  minExpires : Option JSNum
deriving DecidableEq, Repr

/-- `Publisher.receiveResponse(response)`: the `switch (true)` over the
status-code classes followed by the shared cleanup block (which runs unless
the switch threw). -/
def receiveResponse (p : Publisher) (resp : PublishResponse) :
    Publisher × List PublisherEvent × Option PublisherException :=
  let code := resp.statusCode
  let switchResult : Publisher × List PublisherEvent × Option PublisherException :=
    if 100 ≤ code ∧ code ≤ 199 then (p, [.progressEmitted], none)
    else if 200 ≤ code ∧ code ≤ 299 then
      -- Set SIP-Etag (warn when the header is missing)
      let p := match resp.sipETag with
        | some v => { p with pubRequestEtag := some v }
        | none => p
      -- Update Expire: adopt only a value between 0 and the pending request's
      -- expires (warn otherwise; `typeof expires === "number"` always holds)
      let p := match resp.expires with
        | some e =>
          if jsGeZero e && jsLe e p.pubRequestExpires then { p with pubRequestExpires := e }
          else p
        | none => p
      if ¬ jsEqZero p.pubRequestExpires then
        -- Schedule refresh: setTimeout(() => this.refreshRequest(), this.pubRequestExpires * 900)
        let p := { p with publishRefreshTimer := some (p.pubRequestExpires.map (· * 900)) }
        publisherStateTransition p .Published
      else publisherStateTransition p .Unpublished
    else if code = 412 then
      -- 412 means no matching ETag; resubmit as new request unless removing
      if p.pubRequestEtag ≠ none ∧ ¬ jsEqZero p.pubRequestExpires then
        let p := { p with pubRequestEtag := none }
        let (p, ev2) := publish p p.optionsBody
        (p, [.progressEmitted] ++ ev2, none)
      else
        let p := { p with pubRequestExpires := some 0 }
        match publisherStateTransition p .Unpublished with
        | (p, ev1, some e) => (p, ev1, some e)
        | (p, ev1, none) =>
          let (p, ev2, e2) := publisherStateTransition p .Terminated
          (p, ev1 ++ ev2, e2)
    else if code = 423 then
      -- 423 means the Expires interval must be adjusted up
      match resp.minExpires, jsEqZero p.pubRequestExpires with
      | some minE, false =>
        -- `typeof minExpires === "number" || minExpires > this.pubRequestExpires`:
        -- the first disjunct always holds for a `Number(...)` result
        if true || jsGt minE p.pubRequestExpires then
          let p := { p with pubRequestExpires := minE }
          let (p, ev2) := publish p p.optionsBody
          (p, [.progressEmitted] ++ ev2, none)
        else
          let p := { p with pubRequestExpires := some 0 }
          match publisherStateTransition p .Unpublished with
          | (p, ev1, some e) => (p, ev1, some e)
          | (p, ev1, none) =>
            let (p, ev2, e2) := publisherStateTransition p .Terminated
            (p, ev1 ++ ev2, e2)
      | _, _ =>
        let p := { p with pubRequestExpires := some 0 }
        match publisherStateTransition p .Unpublished with
        | (p, ev1, some e) => (p, ev1, some e)
        | (p, ev1, none) =>
          let (p, ev2, e2) := publisherStateTransition p .Terminated
          (p, ev1 ++ ev2, e2)
    else
      let p := { p with pubRequestExpires := some 0 }
      match publisherStateTransition p .Unpublished with
      | (p, ev1, some e) => (p, ev1, some e)
      | (p, ev1, none) =>
        let (p, ev2, e2) := publisherStateTransition p .Terminated
        (p, ev1 ++ ev2, e2)
  -- Do the cleanup
  match switchResult with
  | (p, events, some e) => (p, events, some e)
  | (p, events, none) =>
    if jsEqZero p.pubRequestExpires then
      let p := clearPublishRefreshTimer p
      ({ p with pubRequestBody := none, pubRequestEtag := none }, events, none)
    else (p, events, none)

/-! ## User agent (src/api/user-agent.ts) -/

/-- The two user agent states of the `UserAgentState` enum. -/
inductive UserAgentState
  | Started
  | Stopped
deriving DecidableEq, Repr

/-- Observable events of `UserAgent.stop()`, in the order the source awaits
them: the state-change notification, one disposal per transaction user, the
transport disposal (disconnect) and the user agent core disposal (reset). -/
inductive StopEvent
  | stateChanged (s : UserAgentState)
  | registererDisposed (id : String)
  | sessionDisposed (id : String)
  | subscriptionDisposed (id : String)
  | publisherDisposed (id : String)
  | transportDisposed
  | coreDisposed
deriving DecidableEq, Repr

/-- The user agent fields that `stop()` reads: the state and the ids held in
the four transaction-user collections (each disposal also removes the
transaction user from the live collection; `stop()` iterates over snapshot
copies, which these lists model). -/
structure UserAgentModel where
  state : UserAgentState
  registerers : List String
  sessions : List String
  subscriptions : List String
  publishers : List String
deriving DecidableEq, Repr

/-- One `for (const id in xs) { await xs[id].dispose().catch(rethrow) }` loop
of `stop()`: serial disposal, stopping at (and rethrowing) the first
rejection.  `disposeFails` models which disposals reject. -/
def disposeSerially (mk : String → StopEvent) (disposeFails : String → Bool) :
    List String → List StopEvent × Bool
  | [] => ([], true)
  | id :: rest =>
    if disposeFails id then ([mk id], false)
    else
      let (events, ok) := disposeSerially mk disposeFails rest
      (mk id :: events, ok)

/-- `UserAgent.stop()`.  The boolean result is whether the returned promise
resolves (true) or rejects with a rethrown disposal error (false).
`transportDisposeFails` models `transport.dispose()` rejecting. -/
def stop (ua : UserAgentModel) (disposeFails : String → Bool)
    (transportDisposeFails : Bool) :
    UserAgentModel × List StopEvent × Bool :=
  if ua.state = .Stopped then (ua, [], true)
  else
    -- Transition state
    let ua := { ua with state := .Stopped }
    let events := [StopEvent.stateChanged .Stopped]
    -- Dispose of Registerers
    let (ev1, ok1) := disposeSerially .registererDisposed disposeFails ua.registerers
    if ¬ ok1 then (ua, events ++ ev1, false)
    else
      -- Dispose of Sessions
      let (ev2, ok2) := disposeSerially .sessionDisposed disposeFails ua.sessions
      if ¬ ok2 then (ua, events ++ ev1 ++ ev2, false)
      else
        -- Dispose of Subscriptions
        let (ev3, ok3) := disposeSerially .subscriptionDisposed disposeFails ua.subscriptions
        if ¬ ok3 then (ua, events ++ ev1 ++ ev2 ++ ev3, false)
        else
          -- Dispose of Publishers
          let (ev4, ok4) := disposeSerially .publisherDisposed disposeFails ua.publishers
          if ¬ ok4 then (ua, events ++ ev1 ++ ev2 ++ ev3 ++ ev4, false)
          else
            -- Dispose of the transport (disconnecting)
            if transportDisposeFails then
              (ua, events ++ ev1 ++ ev2 ++ ev3 ++ ev4 ++ [.transportDisposed], false)
            else
              -- Dispose of the user agent core (resetting)
              (ua, events ++ ev1 ++ ev2 ++ ev3 ++ ev4 ++
                [.transportDisposed, .coreDisposed], true)

/-- Modelled from the spec: `str_utf8_length` lives in
`src/core/messages/utils.ts`, which is not among the sources; spec section
4.1 fixes the body length as the UTF-8 byte length of the body string. -/
def str_utf8_length (s : String) : Nat := s.utf8ByteSize

/-- The parts of a parsed `IncomingRequestMessage` that
`UserAgent.onTransportMessage` inspects for its request checks.  The five
`has...` fields are the `hasHeader` results for the mandatory headers;
`contentLength` is `none` when the `Content-Length` header is absent or empty
(JS-falsy), otherwise the `Number(...)` parse of its value. -/
structure IncomingRequest where
  hasFrom : Bool
  hasTo : Bool
  hasCallId : Bool
  hasCSeq : Bool
  hasVia : Bool
  toTag : Option String
  callId : String
  body : String
  contentLength : Option JSNum
deriving DecidableEq, Repr

/-- How `UserAgent.onTransportMessage` disposes of an incoming request. -/
inductive RequestOutcome
  | droppedWhileStopped
  | droppedMissingHeader
  | repliedStatelessly (statusCode : Nat)
  | receivedByCore
deriving DecidableEq, Repr

/-- The `hasMinimumHeaders` closure of `onTransportMessage`: From, To,
Call-ID, CSeq and Via must all be present. -/
def hasMinimumHeaders (m : IncomingRequest) : Bool :=
  m.hasFrom && m.hasTo && m.hasCallId && m.hasCSeq && m.hasVia

/-- The request path of `UserAgent.onTransportMessage` (a successfully parsed
`IncomingRequestMessage`): drop while stopped; drop when a mandatory header
is missing; reply 482 statelessly to a request with no to-tag whose Call-ID
starts with this instance's `sipjsId` (5 characters); reply 400 statelessly
when the declared Content-Length exceeds the body's UTF-8 byte length (a NaN
declared length passes, since `len < NaN` is false); otherwise hand the
request to the user agent core. -/
def onTransportRequest (uaState : UserAgentState) (sipjsId : String)
    (m : IncomingRequest) : RequestOutcome :=
  if uaState = .Stopped then .droppedWhileStopped
  else if ¬ hasMinimumHeaders m then .droppedMissingHeader
  else if falsyStr m.toTag ∧ m.callId.take 5 = sipjsId then .repliedStatelessly 482
  else
    match m.contentLength with
    | some (some n) =>
      if (str_utf8_length m.body : Int) < n then .repliedStatelessly 400
      else .receivedByCore
    | some none => .receivedByCore
    | none => .receivedByCore

/-- The fields of a parsed `Replaces` header that `onInvite` reads
(`call_id`, `replaces_to_tag`, `replaces_from_tag`, `early_only`). -/
structure ReplacesHeader where
  callId : String
  toTag : String
  fromTag : String
  earlyOnly : Bool
deriving DecidableEq, Repr

/-- The inputs of the `UserAgentCoreDelegate.onInvite` handler built in
`UserAgent.initCore`: whether the Replaces extension is enabled
(`sipExtensionReplaces !== SIPExtension.Unsupported`), the parsed Replaces
header (if any), the user agent core's dialog table (dialog id paired with
its `early` flag), the ids in the `_sessions` collection, whether
`this.delegate && this.delegate.onInvite` holds, and the invitation's
`autoSendAnInitialProvisionalResponse` option. -/
structure InviteContext where
  replacesSupported : Bool
  replaces : Option ReplacesHeader
  dialogs : List (String × Bool)
  sessions : List String
  hasOnInviteDelegate : Bool
  autoSendAnInitialProvisionalResponse : Bool
deriving DecidableEq, Repr

/-- How the `onInvite` handler disposes of an incoming out-of-dialog INVITE
(after the automatic 100 Trying).  A `rejected` outcome means
`invitation.reject({ statusCode })` was called and the invitation never
reaches the delegate. -/
inductive InviteOutcome
  | rejected (statusCode : Nat)
  | thrownSessionDoesNotExist
  | delegated
  | progressThenDelegated
deriving DecidableEq, Repr

/-- The Replaces section of `onInvite`: `some outcome` when it returns early
(rejecting) or throws, `none` when it falls through to delegation (either no
enabled/present Replaces header, or a matched dialog whose session was found
and recorded as `invitation._replacee`). -/
def onInviteReplaces (ctx : InviteContext) : Option InviteOutcome :=
  if ¬ ctx.replacesSupported then none
  else
    match ctx.replaces with
    | none => none
    | some r =>
      let targetDialogId := r.callId ++ r.toTag ++ r.fromTag
      match ctx.dialogs.lookup targetDialogId with
      -- If no match is found, reject with 481 Call/Transaction Does Not Exist
      | none => some (.rejected 481)
      | some early =>
        -- A confirmed dialog with the early-only flag: reject with 486 Busy
        if ¬ early ∧ r.earlyOnly then some (.rejected 486)
        else
          -- const targetSession = this._sessions[callId + fromTag]
          --   || this._sessions[callId + toTag] || undefined;
          if ctx.sessions.contains (r.callId ++ r.fromTag) ∨
             ctx.sessions.contains (r.callId ++ r.toTag) then none
          else some .thrownSessionDoesNotExist

/-- The `onInvite` handler: run the Replaces section; reject 486 when no
delegate `onInvite` handler is installed; otherwise delegate (after a 180
progress when `autoSendAnInitialProvisionalResponse` is set). -/
def onInvite (ctx : InviteContext) : InviteOutcome :=
  match onInviteReplaces ctx with
  | some outcome => outcome
  | none =>
    if ¬ ctx.hasOnInviteDelegate then .rejected 486
    else if ¬ ctx.autoSendAnInitialProvisionalResponse then .delegated
    else .progressThenDelegated

set_option maxRecDepth 40000 in
/-- C4: every state transition performed by the Transport FSM is one of the
legal transitions (Disconnected to Connecting; Connecting to Connected,
Disconnecting or Disconnected; Connected to Disconnecting or Disconnected;
Disconnecting to Disconnected or Connecting), and any other requested
transition throws (an invalid-transition error) and leaves the state
unchanged. -/
theorem transport_transitions_legal (t : Transport) (ns : TransportState) (err : Bool)
    (h : t.transitioningState = false) :
    (claimedLegalTransition t.state ns = true → (transitionState t ns err).1.state = ns) ∧
    (claimedLegalTransition t.state ns = false →
      (transitionState t ns err).2.2 = some .invalidTransition ∧
      (transitionState t ns err).1.state = t.state) := by
  revert t ns err
  decide

set_option maxRecDepth 40000 in
/-- C3: invoking `connect()` or `disconnect()` while another state
transition on the same Transport is in flight (the transition-in-progress
flag is set) returns a promise rejected with a StateTransitionError and does
not mutate the transport: the resulting object equals the input and no
events are emitted.  The two promise hypotheses are the class invariants
that a connect (resp. disconnect) promise is only held while Connecting
(resp. Disconnecting). -/
theorem reentrant_transition_rejected (t : Transport) (w : Bool)
    (hflag : t.transitioningState = true)
    (hc : t.connectPromise = true → t.state = .Connecting)
    (hd : t.disconnectPromise = true → t.state = .Disconnecting) :
    connectTransport t w = (t, [], .rejected .stateTransitionLoop) ∧
    disconnectTransport t = (t, [], .rejected .stateTransitionLoop) := by
  revert t w
  decide

set_option maxRecDepth 40000 in
/-- C1 (amended): during every state transition the transition-in-progress
flag is still SET when state-change observers are notified (every
`stateChanged` snapshot in the trace carries `transitioningState = true`),
a `connect()` or `disconnect()` issued synchronously from within such an
observer is rejected with a StateTransitionError (not queued), and the flag
is cleared only as the very last step of the transition, after observers are
notified and the pending connect/disconnect promises are settled. -/
theorem observers_see_flag_set (t : Transport) (ns : TransportState) (err w : Bool)
    (hc : t.connectPromise = true → t.state = .Connecting)
    (hd : t.disconnectPromise = true → t.state = .Disconnecting) :
    ((transitionState t ns err).2.1.all fun e =>
      (stateChangedSnapshot e).all fun s =>
        s.transitioningState &&
        decide (connectTransport s w = (s, [], .rejected .stateTransitionLoop)) &&
        decide (disconnectTransport s = (s, [], .rejected .stateTransitionLoop))) = true ∧
    ((transitionState t ns err).2.2 = none →
      (transitionState t ns err).2.1.getLast? = some .flagCleared) := by
  revert t ns err w
  decide

lemma length_mk (l : List Char) : (String.mk l).length = l.length := rfl

lemma toHexAux_length_le (fuel : Nat) : ∀ n k : Nat, n < 16 ^ k →
    (toHexAux fuel n).length ≤ k := by
  induction fuel with
  | zero => intro n k _; simp [toHexAux]
  | succ fuel ih =>
    intro n k h
    by_cases hn : n = 0
    · simp [toHexAux, hn]
    · have hk : k ≠ 0 := by
        rintro rfl
        simp only [pow_zero, Nat.lt_one_iff] at h
        exact hn h
      obtain ⟨k', rfl⟩ := Nat.exists_eq_succ_of_ne_zero hk
      have hdiv : n / 16 < 16 ^ k' := by
        rw [Nat.div_lt_iff_lt_mul (by norm_num)]
        calc n < 16 ^ (k' + 1) := h
        _ = 16 ^ k' * 16 := by rw [pow_succ]
      simp only [toHexAux, hn, if_false, List.length_append, List.length_singleton]
      have := ih (n / 16) k' hdiv
      omega

lemma toHexString_length_le (n : Nat) (h : n < 4294967296) :
    (toHexString n).length ≤ 8 := by
  unfold toHexString
  split
  · decide
  · rw [length_mk]
    exact toHexAux_length_le n n 8 (by norm_num; exact h)

lemma toHexString_length_pos (n : Nat) (h : n ≠ 0) :
    1 ≤ (toHexString n).length := by
  unfold toHexString
  rw [if_neg h]
  obtain ⟨m, rfl⟩ := Nat.exists_eq_succ_of_ne_zero h
  rw [length_mk]
  simp [toHexAux, h]

lemma zeroPad8_length (hex : String) (h1 : 1 ≤ hex.length) (h2 : hex.length ≤ 8) :
    (zeroPad8 hex).length = 8 := by
  simp only [zeroPad8, String.length_append, length_mk, List.length_replicate]
  omega

lemma calculateResponse_preserves (d : DigestAuthentication) (body : Option String) :
    (calculateResponse d body).nc = d.nc ∧ (calculateResponse d body).ncHex = d.ncHex ∧
    (calculateResponse d body).qop = d.qop := by
  unfold calculateResponse
  split_ifs <;> simp

lemma authenticateFinish_spec (d : DigestAuthentication) (r : RequestInfo)
    (cn : String) (body : Option String) (h : d.nc < 4294967296) :
    (authenticateFinish d r cn body).1.nc =
      (if d.nc + 1 = 4294967296 then 1 else d.nc + 1) ∧
    (authenticateFinish d r cn body).1.ncHex =
      zeroPad8 (toHexString (authenticateFinish d r cn body).1.nc) ∧
    ((authenticateFinish d r cn body).1.ncHex).length = 8 ∧
    (authenticateFinish d r cn body).1.qop = d.qop ∧
    (authenticateFinish d r cn body).2 = true := by
  unfold authenticateFinish updateNcHex
  by_cases hw : d.nc + 1 = 4294967296
  · simp only [hw, if_pos, if_true]
    obtain ⟨h1, h2, h3⟩ := calculateResponse_preserves
      { d with method := some r.method, uri := some r.ruri, cnonce := some cn,
               nc := 1, ncHex := "00000001" } body
    simp_all
    decide
  · simp only [hw, if_neg, if_false]
    obtain ⟨h1, h2, h3⟩ := calculateResponse_preserves
      { d with method := some r.method, uri := some r.ruri, cnonce := some cn,
               nc := d.nc + 1, ncHex := zeroPad8 (toHexString (d.nc + 1)) } body
    simp_all
    exact zeroPad8_length _ (toHexString_length_pos _ (Nat.succ_ne_zero _))
      (toHexString_length_le _ (by omega))

lemma authenticateFinish_qop (d : DigestAuthentication) (r : RequestInfo)
    (cn : String) (body : Option String) :
    (authenticateFinish d r cn body).1.qop = d.qop := by
  simp only [authenticateFinish, updateNcHex, calculateResponse]
  split_ifs <;> simp

lemma authenticateFinish_true (d : DigestAuthentication) (r : RequestInfo)
    (cn : String) (body : Option String) :
    (authenticateFinish d r cn body).2 = true := by
  simp only [authenticateFinish]

lemma authenticateFinish_response_auth (d : DigestAuthentication) (r : RequestInfo)
    (cn : String) (body : Option String) (hq : d.qop = some "auth") :
    (authenticateFinish d r cn body).1.response =
      some (.md5 (.app
        (.md5 (.str (jsStr d.username ++ ":" ++ jsStr d.realm ++ ":" ++ jsStr d.password)))
        (.app (.str (":" ++ jsStr d.nonce ++ ":" ++
            (authenticateFinish d r cn body).1.ncHex ++ ":" ++ cn ++ ":auth:"))
          (.md5 (.str (r.method ++ ":" ++ r.ruri)))))) := by
  simp only [authenticateFinish, updateNcHex, calculateResponse]
  split_ifs <;> simp_all [jsStr]

/-- C2: for a 401/407 challenge that passes the algorithm/realm/nonce
validation, `DigestAuthentication.authenticate` selects qop "auth" whenever
the challenge's qop list contains "auth", selects "auth-int" when the list
contains "auth-int" but not "auth", and when the list contains neither it
returns false without computing a digest response (the response field is
left untouched). -/
theorem authenticate_qop_selection (d : DigestAuthentication) (r : RequestInfo) (c : Challenge)
    (cn : String) (body : Option String) (l : List String)
    (halg : falsyStr c.algorithm = true ∨ c.algorithm = some "MD5")
    (hrealm : falsyStr c.realm = false)
    (hnonce : falsyStr c.nonce = false)
    (hqop : c.qop = some l) :
    (l.contains "auth" = true →
       (authenticate d r c cn body).1.qop = some "auth" ∧
       (authenticate d r c cn body).2 = true) ∧
    (l.contains "auth" = false → l.contains "auth-int" = true →
       (authenticate d r c cn body).1.qop = some "auth-int" ∧
       (authenticate d r c cn body).2 = true) ∧
    (l.contains "auth" = false → l.contains "auth-int" = false →
       (authenticate d r c cn body).2 = false ∧
       (authenticate d r c cn body).1.response = d.response) := by
  unfold authenticate
  simp only [hqop]
  split_ifs <;> simp_all [authenticateFinish_qop, authenticateFinish_true]

lemma authenticate_success_shape (d : DigestAuthentication) (r : RequestInfo) (c : Challenge)
    (cn : String) (body : Option String)
    (h : (authenticate d r c cn body).2 = true) :
    ∃ L : DigestAuthentication,
      authenticate d r c cn body = authenticateFinish L r cn body ∧
      L.nc = d.nc ∧ L.username = d.username ∧ L.password = d.password ∧
      L.realm = c.realm ∧ L.nonce = c.nonce ∧
      (∀ l, c.qop = some l → l.contains "auth" = true → L.qop = some "auth") := by
  unfold authenticate at h ⊢
  rcases hq : c.qop with _ | l <;> simp only [hq] at h ⊢ <;> split_ifs at h ⊢ <;>
    exact ⟨_, rfl, by simp, by simp, by simp, by simp, by simp, by simp_all⟩

/-- C9: every successful `authenticate` call increases the nonce count by
exactly one, except that on reaching 2^32 it wraps to 1; the count is
rendered in `ncHex` as exactly 8 zero-padded lowercase hex digits; and the
digest response (shown here for the qop="auth" branch) is computed from the
post-wrap `ncHex` value, i.e. the wrap happens before the response. -/
theorem authenticate_nonce_count (d : DigestAuthentication) (r : RequestInfo) (c : Challenge)
    (cn : String) (body : Option String)
    (hnc : d.nc < 4294967296)
    (hsuccess : (authenticate d r c cn body).2 = true) :
    (authenticate d r c cn body).1.nc =
      (if d.nc + 1 = 4294967296 then 1 else d.nc + 1) ∧
    (authenticate d r c cn body).1.ncHex =
      zeroPad8 (toHexString ((authenticate d r c cn body).1.nc)) ∧
    ((authenticate d r c cn body).1.ncHex).length = 8 ∧
    (∀ l, c.qop = some l → l.contains "auth" = true →
      (authenticate d r c cn body).1.response =
        some (.md5 (.app
          (.md5 (.str (jsStr d.username ++ ":" ++ jsStr c.realm ++ ":" ++ jsStr d.password)))
          (.app (.str (":" ++ jsStr c.nonce ++ ":" ++
              ((authenticate d r c cn body).1.ncHex) ++ ":" ++ cn ++ ":auth:"))
            (.md5 (.str (r.method ++ ":" ++ r.ruri))))))) := by
  obtain ⟨L, heq, hLnc, hLuser, hLpass, hLrealm, hLnonce, hLqop⟩ :=
    authenticate_success_shape d r c cn body hsuccess
  rw [heq]
  have hnc' : L.nc < 4294967296 := hLnc ▸ hnc
  obtain ⟨A, B, C, _, _⟩ := authenticateFinish_spec L r cn body hnc'
  refine ⟨by rw [A, hLnc], B, C, fun l hl hcont => ?_⟩
  have := authenticateFinish_response_auth L r cn body (hLqop l hl hcont)
  rw [this, hLuser, hLpass, hLrealm, hLnonce]

lemma disposeSerially_all_ok (mk : String → StopEvent) (f : String → Bool)
    (ids : List String) (h : ∀ id ∈ ids, f id = false) :
    disposeSerially mk f ids = (ids.map mk, true) := by
  induction ids with
  | nil => rfl
  | cons id rest ih =>
    have h1 : f id = false := h id (List.mem_cons_self id rest)
    rw [disposeSerially, h1]
    simp only [Bool.false_eq_true, if_false, List.map_cons]
    rw [ih fun i hi => h i (List.mem_cons_of_mem _ hi)]

/-- C5: `UserAgent.stop()` in the Started state disposes the Registerers,
then the Sessions, then the Subscriptions, then the Publishers, serially in
that order (a rejected disposal stops the sequence, so each disposal is
awaited before the next starts), then disposes (disconnects) the transport,
then disposes (resets) the user agent core; and `stop()` in the Stopped
state performs none of these steps and resolves. -/
theorem stop_disposal_order (ua : UserAgentModel) (f : String → Bool)
    (hstart : ua.state = .Started) (hok : ∀ id, f id = false) :
    stop ua f false =
      ({ ua with state := .Stopped },
        [StopEvent.stateChanged .Stopped] ++ ua.registerers.map .registererDisposed ++
          ua.sessions.map .sessionDisposed ++
          ua.subscriptions.map .subscriptionDisposed ++
          ua.publishers.map .publisherDisposed ++
          [.transportDisposed, .coreDisposed],
        true) ∧
    (∀ ua2 : UserAgentModel, ua2.state = .Stopped → stop ua2 f false = (ua2, [], true)) := by
  constructor
  · unfold stop
    rw [hstart]
    simp only [disposeSerially_all_ok _ f _ (fun i _ => hok i)]
    simp
  · intro ua2 h2
    unfold stop
    rw [h2]
    simp

/-- C6 (counterexample): the claim says every 200-class PUBLISH response
with a nonzero effective expires "transitions to Published".  For a publisher
that is already Published (the refresh case of the spec's own scenario 5), a
200 response with `SIP-ETag: "abc"` and `Expires: 3600` instead throws
`Error("Invalid state transition from Published to Published")` out of
`stateTransition`: no state-change event is emitted (the refresh timer was
already scheduled before the throw, and the state stays Published). -/
theorem refresh_2xx_invalid_transition_cex :
    receiveResponse
      { state := .Published, optionsExpires := 3600, optionsBody := some "state",
        unpublishOnClose := true, pubRequestBody := none, pubRequestExpires := some 3600,
        pubRequestEtag := some "abc", publishRefreshTimer := none, disposed := false }
      { statusCode := 200, sipETag := some "abc", expires := some (some 3600),
        minExpires := none } =
    ({ state := .Published, optionsExpires := 3600, optionsBody := some "state",
       unpublishOnClose := true, pubRequestBody := none, pubRequestExpires := some 3600,
       pubRequestEtag := some "abc", publishRefreshTimer := some (some 3240000),
       disposed := false }, [], some .invalidStateTransition) := by
  decide

/-- C6 (amended): for every 200-class response to a PUBLISH received in a
state from which the resulting transition is legal (e.g. Initial or
Unpublished for Published; Initial or Published for Unpublished), the
Publisher stores the SIP-ETag header value when present (keeping the old one,
with a warning, when absent), adopts the response's Expires value only when
it is a number between 0 and the pending request's expires inclusive
(keeping the requested value otherwise), and when the effective expires is
nonzero schedules the refresh timer with a delay of `expires * 900`
milliseconds (0.9 times the effective expires in seconds) and transitions to
Published; when the effective expires is 0 it transitions to Unpublished
instead (clearing the etag and timer in the shared cleanup). -/
theorem receiveResponse_2xx (p : Publisher) (resp : PublishResponse)
    (h2xx : 200 ≤ resp.statusCode ∧ resp.statusCode ≤ 299)
    (hv : validPublisherTransition p.state
      (if jsEqZero (match resp.expires with
        | some e => if jsGeZero e && jsLe e p.pubRequestExpires then e
                    else p.pubRequestExpires
        | none => p.pubRequestExpires) then .Unpublished else .Published) = true) :
    (receiveResponse p resp).2.2 = none ∧
    ((jsEqZero (match resp.expires with
        | some e => if jsGeZero e && jsLe e p.pubRequestExpires then e
                    else p.pubRequestExpires
        | none => p.pubRequestExpires) = false) →
      (receiveResponse p resp).1.state = .Published ∧
      (receiveResponse p resp).1.pubRequestEtag =
        (match resp.sipETag with | some v => some v | none => p.pubRequestEtag) ∧
      (receiveResponse p resp).1.pubRequestExpires =
        (match resp.expires with
          | some e => if jsGeZero e && jsLe e p.pubRequestExpires then e
                      else p.pubRequestExpires
          | none => p.pubRequestExpires) ∧
      (receiveResponse p resp).1.publishRefreshTimer =
        some ((match resp.expires with
          | some e => if jsGeZero e && jsLe e p.pubRequestExpires then e
                      else p.pubRequestExpires
          | none => p.pubRequestExpires).map (· * 900)) ∧
      (receiveResponse p resp).2.1 = [.stateChanged .Published]) ∧
    ((jsEqZero (match resp.expires with
        | some e => if jsGeZero e && jsLe e p.pubRequestExpires then e
                    else p.pubRequestExpires
        | none => p.pubRequestExpires) = true) →
      (receiveResponse p resp).1.state = .Unpublished ∧
      (receiveResponse p resp).1.pubRequestEtag = none ∧
      (receiveResponse p resp).1.publishRefreshTimer = none ∧
      (receiveResponse p resp).2.1 = [.stateChanged .Unpublished]) := by
  have hno1xx : ¬ (100 ≤ resp.statusCode ∧ resp.statusCode ≤ 199) := by omega
  unfold receiveResponse
  simp only [hno1xx, if_false, h2xx, and_self, if_true]
  rcases hetag : resp.sipETag with _ | v <;>
    rcases hexp : resp.expires with _ | e <;>
    simp only [hetag, hexp] at hv ⊢ <;>
    unfold publisherStateTransition <;>
    split_ifs at hv ⊢ <;>
    simp_all [jsEqZero, clearPublishRefreshTimer]

set_option linter.unreachableTactic false in
set_option linter.unusedTactic false in
/-- C7: for every inbound request while started: missing any of From, To,
Call-ID, CSeq or Via drops the request; otherwise a request with no to-tag
whose Call-ID prefix (first 5 characters) equals this instance's sipjs id is
answered 482 statelessly; otherwise a declared Content-Length exceeding the
body's UTF-8 byte length is answered 400 statelessly; and a request reaches
the user agent core exactly when it passes all three checks. -/
theorem onTransportRequest_checks (uaState : UserAgentState) (sid : String)
    (m : IncomingRequest) (hstarted : uaState = .Started) :
    (hasMinimumHeaders m = false →
      onTransportRequest uaState sid m = .droppedMissingHeader) ∧
    (hasMinimumHeaders m = true → falsyStr m.toTag = true → m.callId.take 5 = sid →
      onTransportRequest uaState sid m = .repliedStatelessly 482) ∧
    (∀ n : Int, hasMinimumHeaders m = true →
      ¬ (falsyStr m.toTag = true ∧ m.callId.take 5 = sid) →
      m.contentLength = some (some n) → (str_utf8_length m.body : Int) < n →
      onTransportRequest uaState sid m = .repliedStatelessly 400) ∧
    (onTransportRequest uaState sid m = .receivedByCore ↔
      (hasMinimumHeaders m = true ∧
       ¬ (falsyStr m.toTag = true ∧ m.callId.take 5 = sid) ∧
       (∀ n : Int, m.contentLength = some (some n) →
         n ≤ (str_utf8_length m.body : Int)))) := by
  subst hstarted
  unfold onTransportRequest
  rcases hcl : m.contentLength with _ | e
  · split_ifs <;> simp_all
  · rcases e with _ | n
    · split_ifs <;> simp_all
    · split_ifs <;> simp_all <;> omega

/-- C8: with the Replaces extension enabled and an incoming INVITE carrying
a Replaces header, the invitation is rejected with 481 (never delegated, so
no session is surfaced) when no dialog matches the concatenated call-id,
to-tag and from-tag, and rejected with 486 when the matched dialog is
confirmed (not early) and the header carries the early-only flag. -/
theorem onInvite_replaces_rejections (ctx : InviteContext) (r : ReplacesHeader)
    (hsup : ctx.replacesSupported = true) (hr : ctx.replaces = some r) :
    (ctx.dialogs.lookup (r.callId ++ r.toTag ++ r.fromTag) = none →
      onInvite ctx = .rejected 481) ∧
    (ctx.dialogs.lookup (r.callId ++ r.toTag ++ r.fromTag) = some false →
      r.earlyOnly = true → onInvite ctx = .rejected 486) := by
  unfold onInvite onInviteReplaces
  rw [hsup, hr]
  constructor
  · intro h
    simp [h]
  · intro h he
    simp [h, he]

/-- C10: when the user agent has no delegate or the delegate has no
`onInvite` handler, every incoming out-of-dialog INVITE whose Replaces
section falls through (no enabled/present Replaces header, or all Replaces
checks passed) is rejected with 486 and never delivered to a delegate. -/
theorem onInvite_no_delegate (ctx : InviteContext)
    (hnod : ctx.hasOnInviteDelegate = false)
    (hpass : onInviteReplaces ctx = none) :
    onInvite ctx = .rejected 486 ∧ onInvite ctx ≠ .delegated ∧
    onInvite ctx ≠ .progressThenDelegated := by
  unfold onInvite
  rw [hpass]
  simp [hnod]

/-- C1 (counterexample): the claim says the transition-in-progress flag is
cleared before observers are notified and before the pending promises are
resolved, so that a reentrant `connect()`/`disconnect()` is accepted and
queued.  In the Connecting-to-Connected transition below the observers are
notified with the flag still set (`transitioningState = true` in the
`stateChanged` snapshot), the pending connect promise is resolved before the
`flagCleared` step, and a `connect()` or `disconnect()` issued at observer
time is rejected with a StateTransitionError rather than queued. -/
theorem transition_flag_order_cex :
    (transitionState ⟨.Connecting, false, true, false, true, true⟩ .Connected false).2.1 =
      [.stateChanged ⟨.Connected, true, false, false, false, true⟩, .onConnectCalled,
       .legacyEmit .Connected, .connectResolved, .flagCleared] ∧
    (connectTransport ⟨.Connected, true, false, false, false, true⟩ true).2.2 =
      .rejected .stateTransitionLoop ∧
    (disconnectTransport ⟨.Connected, true, false, false, false, true⟩).2.2 =
      .rejected .stateTransitionLoop := by decide

/-! ## Witnesses: the hypothesis-bearing theorems above, exercised at
concrete inputs -/

/-- Witness for C4: from Disconnected, a requested transition to Connected is
not legal, throws the invalid-transition error and leaves the state
Disconnected. -/
theorem transport_transitions_legal_witness :
    (transitionState ⟨.Disconnected, false, false, false, false, false⟩
        .Connected false).2.2 = some .invalidTransition ∧
    (transitionState ⟨.Disconnected, false, false, false, false, false⟩
        .Connected false).1.state = .Disconnected :=
  (transport_transitions_legal ⟨.Disconnected, false, false, false, false, false⟩
    .Connected false rfl).2 rfl

/-- Witness for C3: while a transition on a Connected transport is in
flight, both `connect()` and `disconnect()` reject with the
StateTransitionError and leave the transport untouched. -/
theorem reentrant_transition_rejected_witness :
    connectTransport ⟨.Connected, true, false, false, false, true⟩ true =
      (⟨.Connected, true, false, false, false, true⟩, [], .rejected .stateTransitionLoop) ∧
    disconnectTransport ⟨.Connected, true, false, false, false, true⟩ =
      (⟨.Connected, true, false, false, false, true⟩, [], .rejected .stateTransitionLoop) :=
  reentrant_transition_rejected ⟨.Connected, true, false, false, false, true⟩ true
    rfl (fun h => nomatch h) (fun h => nomatch h)

/-- Witness for C1 (amended): in the Disconnected-to-Connecting transition
every observer snapshot has the flag set and rejects reentrant calls, and
the flag-clearing step is the last event of the successful run. -/
theorem observers_see_flag_set_witness :
    ((transitionState ⟨.Disconnected, false, false, false, false, false⟩
        .Connecting false).2.1.all fun e =>
      (stateChangedSnapshot e).all fun s =>
        s.transitioningState &&
        decide (connectTransport s true = (s, [], .rejected .stateTransitionLoop)) &&
        decide (disconnectTransport s = (s, [], .rejected .stateTransitionLoop))) = true ∧
    ((transitionState ⟨.Disconnected, false, false, false, false, false⟩
        .Connecting false).2.2 = none →
      (transitionState ⟨.Disconnected, false, false, false, false, false⟩
        .Connecting false).2.1.getLast? = some .flagCleared) :=
  observers_see_flag_set ⟨.Disconnected, false, false, false, false, false⟩
    .Connecting false true (fun h => nomatch h) (fun h => nomatch h)

/-- Witness for C2: a challenge whose qop list is `["auth-int"]` selects
qop "auth-int" and succeeds. -/
theorem authenticate_qop_selection_witness :
    (authenticate (mkDigestAuthentication (some "alice") (some "secret"))
        ⟨"REGISTER", "sip:registrar.example.com"⟩
        ⟨none, some "example.com", some "xyz", none, none, some ["auth-int"]⟩
        "0a1b2c3d4e5f" none).1.qop = some "auth-int" ∧
    (authenticate (mkDigestAuthentication (some "alice") (some "secret"))
        ⟨"REGISTER", "sip:registrar.example.com"⟩
        ⟨none, some "example.com", some "xyz", none, none, some ["auth-int"]⟩
        "0a1b2c3d4e5f" none).2 = true :=
  (authenticate_qop_selection (mkDigestAuthentication (some "alice") (some "secret"))
      ⟨"REGISTER", "sip:registrar.example.com"⟩
      ⟨none, some "example.com", some "xyz", none, none, some ["auth-int"]⟩
      "0a1b2c3d4e5f" none ["auth-int"]
      (Or.inl rfl) (by decide) (by decide) rfl).2.1 (by decide) (by decide)

/-- Witness for C9: an authentication with the nonce count at 2^32 - 1 wraps
it to 1 and renders `ncHex` as the 8 zero-padded digits `"00000001"`. -/
theorem authenticate_nonce_count_witness :
    (authenticate
        { mkDigestAuthentication (some "alice") (some "secret") with nc := 4294967295 }
        ⟨"REGISTER", "sip:registrar.example.com"⟩
        ⟨none, some "example.com", some "xyz", none, none, some ["auth"]⟩
        "0a1b2c3d4e5f" none).1.nc = 1 ∧
    (authenticate
        { mkDigestAuthentication (some "alice") (some "secret") with nc := 4294967295 }
        ⟨"REGISTER", "sip:registrar.example.com"⟩
        ⟨none, some "example.com", some "xyz", none, none, some ["auth"]⟩
        "0a1b2c3d4e5f" none).1.ncHex = "00000001" ∧
    ((authenticate
        { mkDigestAuthentication (some "alice") (some "secret") with nc := 4294967295 }
        ⟨"REGISTER", "sip:registrar.example.com"⟩
        ⟨none, some "example.com", some "xyz", none, none, some ["auth"]⟩
        "0a1b2c3d4e5f" none).1.ncHex).length = 8 := by
  obtain ⟨A, B, C, _⟩ := authenticate_nonce_count
    { mkDigestAuthentication (some "alice") (some "secret") with nc := 4294967295 }
    ⟨"REGISTER", "sip:registrar.example.com"⟩
    ⟨none, some "example.com", some "xyz", none, none, some ["auth"]⟩
    "0a1b2c3d4e5f" none (by decide) (by decide)
  refine ⟨by rw [A]; decide, ?_, C⟩
  rw [B, A]
  decide

/-- Witness for C5: a started user agent with one registerer, two sessions,
no subscriptions and one publisher disposes them in the claimed order, then
the transport, then the core. -/
theorem stop_disposal_order_witness :
    stop ⟨.Started, ["r1"], ["s1", "s2"], [], ["p1"]⟩ (fun _ => false) false =
      (⟨.Stopped, ["r1"], ["s1", "s2"], [], ["p1"]⟩,
        [.stateChanged .Stopped, .registererDisposed "r1", .sessionDisposed "s1",
         .sessionDisposed "s2", .publisherDisposed "p1", .transportDisposed,
         .coreDisposed], true) :=
  (stop_disposal_order ⟨.Started, ["r1"], ["s1", "s2"], [], ["p1"]⟩
    (fun _ => false) rfl (fun _ => rfl)).1

/-- Witness for C6 (amended): a freshly constructed publisher receiving a
200 with `SIP-ETag: "abc"` and `Expires: 1800` (below the requested 3600)
adopts the lower expires, schedules the refresh timer at 1620000 ms
(0.9 times 1800 seconds) and transitions to Published without throwing. -/
theorem receiveResponse_2xx_witness :
    (receiveResponse (mkPublisher none none none)
        { statusCode := 200, sipETag := some "abc", expires := some (some 1800),
          minExpires := none }).2.2 = none ∧
    (receiveResponse (mkPublisher none none none)
        { statusCode := 200, sipETag := some "abc", expires := some (some 1800),
          minExpires := none }).1.state = .Published ∧
    (receiveResponse (mkPublisher none none none)
        { statusCode := 200, sipETag := some "abc", expires := some (some 1800),
          minExpires := none }).1.pubRequestEtag = some "abc" ∧
    (receiveResponse (mkPublisher none none none)
        { statusCode := 200, sipETag := some "abc", expires := some (some 1800),
          minExpires := none }).1.publishRefreshTimer = some (some 1620000) := by
  have H := receiveResponse_2xx (mkPublisher none none none)
    { statusCode := 200, sipETag := some "abc", expires := some (some 1800),
      minExpires := none } (by decide) (by decide)
  obtain ⟨h1, h2, h3, h4, h5⟩ := H.2.1 (by decide)
  exact ⟨H.1, h1, h2, by rw [h4]; decide⟩

/-- Witness for C7: a request carrying all mandatory headers, no to-tag and
a Call-ID starting with this instance's sipjs id is answered 482. -/
theorem onTransportRequest_checks_witness :
    onTransportRequest .Started "ab1cd"
      ⟨true, true, true, true, true, none, "ab1cdxyz", "", none⟩ =
      .repliedStatelessly 482 :=
  (onTransportRequest_checks .Started "ab1cd"
    ⟨true, true, true, true, true, none, "ab1cdxyz", "", none⟩ rfl).2.1
    rfl (by decide) (by decide)

/-- Witness for C8: an INVITE with a Replaces header naming a dialog absent
from the dialog table is rejected 481. -/
theorem onInvite_replaces_rejections_witness :
    onInvite ⟨true, some ⟨"cid", "tt", "ft", false⟩, [], [], true, false⟩ =
      .rejected 481 :=
  (onInvite_replaces_rejections
    ⟨true, some ⟨"cid", "tt", "ft", false⟩, [], [], true, false⟩
    ⟨"cid", "tt", "ft", false⟩ rfl rfl).1 rfl

/-- Witness for C10: with no delegate handler and no Replaces header, the
INVITE is rejected 486 and never delegated. -/
theorem onInvite_no_delegate_witness :
    onInvite ⟨false, none, [], [], false, false⟩ = .rejected 486 ∧
    onInvite ⟨false, none, [], [], false, false⟩ ≠ .delegated ∧
    onInvite ⟨false, none, [], [], false, false⟩ ≠ .progressThenDelegated :=
  onInvite_no_delegate ⟨false, none, [], [], false, false⟩ rfl (by decide)

end SipJs
